import Mathlib

/-!
Verification development for the Telegram relay service
(src/services/telegram_service.ts and companions).

Strings are modelled as `List Char`.  JavaScript values that may be
`undefined` are modelled as `Option`; JS string truthiness (empty string
and `undefined` are falsy) is made explicit via `truthyStr`/`truthyOpt`.
The canonical implementation is the second `TelegramService` class of
src/src/services/telegram_service.ts (the per-request `getEnv` variant);
the first class of that file and the variant in src/unnamed/part_006 are
embedded separately where a claim cites them.
-/

namespace TelegramRelay

/-- JS truthiness of a string: the empty string is falsy. -/
def truthyStr (s : List Char) : Bool := !s.isEmpty

/-- JS truthiness of a possibly-undefined string: `undefined` and the
empty string are falsy. -/
def truthyOpt : Option (List Char) → Bool
  | some s => truthyStr s
  | none => false

/-- JS string coercion of a possibly-undefined string: string
concatenation renders `undefined` as the text "undefined". -/
def jsStr : Option (List Char) → List Char
  | some s => s
  | none => ("undefined".toList)

/-- JS `a || b` on possibly-undefined strings. -/
def jsOrOpt (a b : Option (List Char)) : Option (List Char) :=
  if truthyOpt a then a else b

/-- JS `a || b` where the fallback is a plain string. -/
def jsOrStr (a : Option (List Char)) (b : List Char) : List Char :=
  if truthyOpt a then a.getD [] else b

/-! ## The correlation-id codec

`formatMessageForTelegram` embeds the conversation id into the outbound
text; `extractChatIdFromMessage` recovers it with the regex
`🆔 Chat ID: ([a-zA-Z0-9-_]+)` (leftmost match, greedy capture). -/

/-- A character of the legal token alphabet `[a-zA-Z0-9-_]`. -/
def isTokenChar (c : Char) : Bool :=
  (('a' ≤ c && c ≤ 'z') || ('A' ≤ c && c ≤ 'Z') ||
   ('0' ≤ c && c ≤ '9') || c == '-' || c == '_')

/-- The literal fragment the extraction regex looks for. -/
def marker : List Char := ("🆔 Chat ID: ".toList)

/-- Greedy capture of `[a-zA-Z0-9-_]+`: longest token-character run. -/
def takeTokenRun : List Char → List Char
  | [] => []
  | c :: cs => if isTokenChar c then c :: takeTokenRun cs else []

/-- The regex `🆔 Chat ID: ([a-zA-Z0-9-_]+)` matches at the head of
`t`: the marker is a literal head of `t` and at least one token
character follows it. -/
def matchAt (t : List Char) : Bool :=
  (marker.isPrefixOf t) &&
    (match t.drop marker.length with
     | c :: _ => isTokenChar c
     | [] => false)

/-- Embedding of `extractChatIdFromMessage` from telegram_service.ts: leftmost match
of the regex, returning the first capture group, `null` when the text
has no match. -/
def extractChatIdFromMessage : List Char → Option (List Char)
  | [] => none
  | c :: rest =>
    if matchAt (c :: rest) then
      some (takeTokenRun ((c :: rest).drop marker.length))
    else extractChatIdFromMessage rest

/-- No position strictly inside `pre` starts a regex match of
`pre ++ suf`. -/
def cleanChunk : List Char → List Char → Bool
  | [], _ => true
  | c :: cs, suf => (!(matchAt ((c :: cs) ++ suf))) && cleanChunk cs suf

/-- Some position of `t` starts a regex match. -/
def hasMarkerMatch : List Char → Bool
  | [] => false
  | c :: rest => matchAt (c :: rest) || hasMarkerMatch rest

/-! ### The domain objects passed through the relay -/

/-- The `Chat` value received from the main server.  Optional user
fields mirror the TS interface. -/
structure ChatV where
  chatId : List Char
  userName : Option (List Char)
  phoneNumber : Option (List Char)
  currentPage : Option (List Char)
  tags : Option (List (List Char))
  assignedAdminTelegramId : Option (List Char)
  deriving DecidableEq, Repr

/-- Message content kind, the TS union "text" | "image" | "file". -/
inductive ContentType where
  | text
  | image
  | file
  deriving DecidableEq, Repr

/-- The `Message` value received from the main server.  The timestamp
is kept in its rendered form: the code only ever uses
`new Date(timestamp).toLocaleString("fa-IR")`, an external library
rendering, so the embedding carries that rendered string. -/
structure MessageV where
  contentType : ContentType
  contentText : Option (List Char)
  fileUrl : Option (List Char)
  timestampRendered : List Char
  deriving DecidableEq, Repr

/-- Comma-space join of the tag list, as JS `Array.join(", ")`. -/
def joinTags : List (List Char) → List Char
  | [] => []
  | [t] => t
  | t :: ts => t ++ (", ".toList) ++ joinTags ts

/-- The sender header, `chat.user.name` plus the optional phone
suffix, exactly as concatenated by the source. -/
def userInfoOf (chat : ChatV) : List Char :=
  jsStr chat.userName ++
    (if truthyOpt chat.phoneNumber
     then (" (".toList) ++ chat.phoneNumber.getD [] ++ (")".toList)
     else [])

/-- Everything `formatMessageForTelegram` emits before the marker. -/
def preChunkOf (chat : ChatV) : List Char :=
  ("💬 <b>پیام جدید از ".toList) ++ userInfoOf chat ++ ("</b>\n<code>".toList)

/-- Everything `formatMessageForTelegram` emits after the embedded
chat id. -/
def postChunkOf (chat : ChatV) (msg : MessageV) : List Char :=
  ("</code>\n⏰ ".toList) ++ msg.timestampRendered ++ ("\n".toList) ++
  (if truthyOpt chat.currentPage
   then ("📍 صفحه: ".toList) ++ chat.currentPage.getD [] ++ ("\n".toList)
   else []) ++
  (match chat.tags with
   | some ts => if ts.length > 0
                then ("🏷️ تگ‌ها: ".toList) ++ joinTags ts ++ ("\n".toList)
                else []
   | none => []) ++
  ("\n📝 <b>پیام:</b>\n".toList) ++ jsOrStr msg.contentText ("(فایل)".toList)

/-- Embedding of `formatMessageForTelegram` from telegram_service.ts: the outbound
text with the embedded conversation id. -/
def formatMessageForTelegram (chat : ChatV) (msg : MessageV) : List Char :=
  preChunkOf chat ++ marker ++ chat.chatId ++ postChunkOf chat msg

/-- The source builds the id line as the single literal
`<code>🆔 Chat ID: ` ++ chatId; splitting it as pre-chunk ++ marker is
sound because that literal is exactly `<code>` followed by the marker. -/
theorem codeTag_marker :
    ("<code>🆔 Chat ID: ".toList) = ("<code>".toList) ++ marker := by
  decide

/-! ### Codec lemmas -/

theorem extract_cons (c : Char) (rest : List Char) :
    extractChatIdFromMessage (c :: rest) =
      if matchAt (c :: rest) then
        some (takeTokenRun ((c :: rest).drop marker.length))
      else extractChatIdFromMessage rest := rfl

theorem isPrefixOf_append_self : ∀ (l r : List Char), l.isPrefixOf (l ++ r) = true
  | [], _ => by simp [List.isPrefixOf]
  | c :: cs, r => by
    simp only [List.cons_append, List.isPrefixOf]
    simp [isPrefixOf_append_self cs r]

theorem drop_len_append : ∀ (l r : List Char), (l ++ r).drop l.length = r
  | [], _ => rfl
  | _ :: cs, r => drop_len_append cs r

/-- Skipping a chunk in which no match starts leaves extraction
unchanged. -/
theorem extract_skip_clean : ∀ (pre suf : List Char),
    cleanChunk pre suf = true →
    extractChatIdFromMessage (pre ++ suf) = extractChatIdFromMessage suf
  | [], _, _ => rfl
  | c :: cs, suf, h => by
    simp only [cleanChunk, Bool.and_eq_true, Bool.not_eq_true'] at h
    simp only [List.cons_append] at h ⊢
    rw [extract_cons]
    rw [if_neg (by simp [h.1])]
    exact extract_skip_clean cs suf h.2

/-- Extraction at the marker itself returns the greedy token run. -/
theorem extract_append_marker (c : Char) (X : List Char)
    (hc : isTokenChar c = true) :
    extractChatIdFromMessage (marker ++ c :: X) =
      some (takeTokenRun (c :: X)) := by
  have e1 : marker ++ c :: X = '🆔' :: ((" Chat ID: ".toList) ++ c :: X) := rfl
  have hm : matchAt (marker ++ c :: X) = true := by
    unfold matchAt
    rw [isPrefixOf_append_self, drop_len_append]
    simp [hc]
  rw [e1, extract_cons, ← e1, if_pos (by simp [hm]), drop_len_append]

/-- The greedy token run of an all-token list followed by a
non-token head stops exactly at the boundary. -/
theorem takeTokenRun_append_stop : ∀ (xs suf : List Char),
    xs.all isTokenChar = true →
    (∀ y ∈ suf.head?, isTokenChar y = false) →
    takeTokenRun (xs ++ suf) = xs
  | [], suf, _, hsuf => by
    cases suf with
    | nil => rfl
    | cons y ys =>
      simp only [List.nil_append, takeTokenRun]
      rw [if_neg (by simp [hsuf y (by simp)])]
  | x :: xs, suf, hall, hsuf => by
    simp only [List.all_cons, Bool.and_eq_true] at hall
    simp only [List.cons_append, takeTokenRun, List.append_eq]
    rw [if_pos (by simp [hall.1]), takeTokenRun_append_stop xs suf hall.2 hsuf]

/-- The tail of the post chunk, used to expose its non-token head. -/
def postTailOf (chat : ChatV) (msg : MessageV) : List Char :=
  ("/code>\n⏰ ".toList) ++ msg.timestampRendered ++ ("\n".toList) ++
  (if truthyOpt chat.currentPage
   then ("📍 صفحه: ".toList) ++ chat.currentPage.getD [] ++ ("\n".toList)
   else []) ++
  (match chat.tags with
   | some ts => if ts.length > 0
                then ("🏷️ تگ‌ها: ".toList) ++ joinTags ts ++ ("\n".toList)
                else []
   | none => []) ++
  ("\n📝 <b>پیام:</b>\n".toList) ++ jsOrStr msg.contentText ("(فایل)".toList)

theorem postChunk_eq (chat : ChatV) (msg : MessageV) :
    postChunkOf chat msg = '<' :: postTailOf chat msg := rfl

/-- Claim C1 (amended): for every chat whose chatId is a non-empty
token-alphabet string and whose rendered sender header admits no match
of the extraction regex, extraction from the formatted outbound text
recovers exactly the chatId. -/
theorem C1_roundtrip_amended (chat : ChatV) (msg : MessageV)
    (h1 : chat.chatId ≠ [])
    (h2 : chat.chatId.all isTokenChar = true)
    (h3 : cleanChunk (preChunkOf chat)
            (marker ++ chat.chatId ++ postChunkOf chat msg) = true) :
    extractChatIdFromMessage (formatMessageForTelegram chat msg) =
      some chat.chatId := by
  unfold formatMessageForTelegram
  simp only [List.append_assoc] at h3 ⊢
  rw [extract_skip_clean _ _ h3]
  obtain ⟨c, cs, hc⟩ : ∃ c cs, chat.chatId = c :: cs := by
    cases hcid : chat.chatId with
    | nil => exact absurd hcid h1
    | cons c cs => exact ⟨c, cs, rfl⟩
  have hcall := h2
  rw [hc] at hcall ⊢
  simp only [List.all_cons, Bool.and_eq_true] at hcall
  simp only [List.cons_append]
  rw [extract_append_marker c (cs ++ postChunkOf chat msg) hcall.1]
  have : takeTokenRun ((c :: cs) ++ postChunkOf chat msg) = c :: cs := by
    apply takeTokenRun_append_stop (c :: cs) (postChunkOf chat msg)
    · rw [← hc]; exact h2
    · intro y hy
      rw [postChunk_eq] at hy
      simp only [List.head?] at hy
      simp only [Option.mem_def, Option.some.injEq] at hy
      subst hy
      decide
  simp only [List.cons_append] at this
  rw [this]

/-- A chat whose user name contains the marker fragment: extraction
finds the name-embedded token first. -/
def cexChat : ChatV :=
  { chatId := ("abc".toList)
    userName := some ("🆔 Chat ID: zzz".toList)
    phoneNumber := none
    currentPage := none
    tags := none
    assignedAdminTelegramId := none }

def cexMsg : MessageV :=
  { contentType := ContentType.text
    contentText := some ("hello".toList)
    fileUrl := none
    timestampRendered := ("x".toList) }

/-- Claim C1 (counterexample): a chat with a legal non-empty chatId
whose user name contains the marker fragment breaks the round trip —
extraction returns the token embedded in the name, not the chatId. -/
theorem C1_counterexample :
    (cexChat.chatId ≠ [] ∧ cexChat.chatId.all isTokenChar = true) ∧
    extractChatIdFromMessage (formatMessageForTelegram cexChat cexMsg) ≠
      some cexChat.chatId := by
  decide

/-- Sample well-formed chat and message for witnesses. -/
def wChat : ChatV :=
  { chatId := ("abc-123".toList)
    userName := some ("Ali".toList)
    phoneNumber := some ("0912".toList)
    currentPage := some ("/home".toList)
    tags := some [("vip".toList)]
    assignedAdminTelegramId := none }

def wMsg : MessageV :=
  { contentType := ContentType.text
    contentText := some ("hello".toList)
    fileUrl := none
    timestampRendered := ("1404".toList) }

theorem C1_witness :
    extractChatIdFromMessage (formatMessageForTelegram wChat wMsg) =
      some wChat.chatId :=
  C1_roundtrip_amended wChat wMsg (by decide) (by decide) (by decide)

/-- Claim C2 (amended): extraction returns null exactly on texts
without an occurrence of the marker followed by a token character; in
particular a free-text occurrence of the full fragment is a false
positive. -/
theorem C2_extract_none_iff (t : List Char) :
    extractChatIdFromMessage t = none ↔ hasMarkerMatch t = false := by
  induction t with
  | nil => simp [extractChatIdFromMessage, hasMarkerMatch]
  | cons c cs ih =>
    rw [extract_cons]
    by_cases h : matchAt (c :: cs) = true
    · simp [h, hasMarkerMatch]
    · simp only [Bool.not_eq_true] at h
      simp [hasMarkerMatch, h, ih]

/-- Claim C2 (counterexample): the free-text string `🆔 Chat ID: x` is
not a formatter output (every formatter output starts with 💬), yet
extraction returns a hit on it. -/
theorem C2_counterexample :
    extractChatIdFromMessage ("🆔 Chat ID: x".toList) = some ("x".toList) ∧
    ∀ (chat : ChatV) (msg : MessageV),
      formatMessageForTelegram chat msg ≠ ("🆔 Chat ID: x".toList) := by
  constructor
  · decide
  · intro chat msg h
    have h1 : (formatMessageForTelegram chat msg).head? = some '💬' := rfl
    rw [h] at h1
    revert h1
    decide

/-! ## The update router

Handlers are embedded as functions returning a trace of attempted
external calls (`Effect` list) together with an `Except` result:
`Except.error` models a JS exception escaping the function.  An
`Oracle` fixes the outcome of each kind of external call (network
success or failure, the platform-assigned ids).  Payload fields that no
claim inspects (admin identity, timestamps, file urls inside forwarded
events) are elided from `Effect`. -/

/-- JS `String.split(sep)` (single-character separator). -/
def splitOn (sep : Char) : List Char → List (List Char)
  | [] => [[]]
  | c :: cs =>
    if c == sep then [] :: splitOn sep cs
    else
      match splitOn sep cs with
      | [] => [[c]]
      | h :: t => (c :: h) :: t

def isJsSpace (c : Char) : Bool :=
  c == ' ' || c == '\t' || c == '\n' || c == '\r'

def isDigitChar (c : Char) : Bool := '0' ≤ c && c ≤ '9'

def digitsToNat : List Char → Nat → Nat
  | [], acc => acc
  | c :: cs, acc => digitsToNat cs (acc * 10 + (c.toNat - ('0').toNat))

/-- JS `parseInt(s, 10)`: skip leading whitespace, optional sign,
longest leading decimal-digit run; `none` models NaN. -/
def jsParseInt10 (s : List Char) : Option Int :=
  let s1 := s.dropWhile isJsSpace
  match s1 with
  | '-' :: r =>
      let ds := r.takeWhile isDigitChar
      if ds.isEmpty then none else some (-(digitsToNat ds 0 : Int))
  | '+' :: r =>
      let ds := r.takeWhile isDigitChar
      if ds.isEmpty then none else some ((digitsToNat ds 0 : Int))
  | _ =>
      let ds := s1.takeWhile isDigitChar
      if ds.isEmpty then none else some ((digitsToNat ds 0 : Int))

/-- JS array indexing `l[i]` with a possibly-NaN numeric index:
`undefined` outside the bounds. -/
def jsIndex (l : List (List Char)) : Option Int → Option (List Char)
  | none => none
  | some i => if 0 ≤ i then l[i.toNat]? else none

/-- ASCII lowercasing, the fragment of JS `toLowerCase` relevant to
the command verbs compared here. -/
def jsToLowerAscii (c : Char) : Char :=
  if 'A' ≤ c && c ≤ 'Z' then Char.ofNat (c.toNat + 32) else c

def firstWord (s : List Char) : List Char := (splitOn ' ' s).headD []

/-- The fixed canned-reply list `quickReplies`. -/
def quickReplies : List (List Char) :=
  [("سلام! چطور می‌تونم کمکتون کنم؟".toList),
   ("لطفاً کمی صبر کنید، در حال بررسی موضوع هستم.".toList),
   ("ممنون از تماستون، مشکل شما حل شد؟".toList),
   ("برای اطلاعات بیشتر با شماره پشتیبانی تماس بگیرید.".toList)]

def sentNotice : List Char := ("پیام آماده ارسال شد.".toList)

def notFoundNotice : List Char := ("پیام یافت نشد.".toList)

def closedNotice : List Char := ("چت بسته شد.".toList)

def assignedNotice : List Char := ("چت به شما اختصاص یافت.".toList)

/-- The replying acknowledgment notice; the source wraps the middle
phrase in straight quote marks, elided here. -/
def replyingNotice : List Char :=
  ("وضعیت در حال پاسخ به کاربر ارسال شد.".toList)

def statusNotice : List Char :=
  ("✅ سرویس ربات تلگرام فعال و متصل است.".toList)

def adminErrNotice (chatId : List Char) : List Char :=
  ("❌ خطا در ارسال پیام به سرور اصلی برای چت ".toList) ++ chatId

inductive Err where
  | envMissing
  | apiError
  | forwardError
  deriving DecidableEq, Repr

/-- The two Telegram environment variables, possibly unset or empty. -/
structure Env where
  botToken : Option (List Char)
  groupId : Option (List Char)
  deriving DecidableEq, Repr

structure EnvVals where
  botToken : List Char
  groupId : List Char
  deriving DecidableEq, Repr

/-- Embedding of `getEnv` of the canonical service class: throws when either
variable is falsy. -/
def getEnv (e : Env) : Except Err EnvVals :=
  if truthyOpt e.botToken && truthyOpt e.groupId then
    Except.ok ⟨e.botToken.getD [], e.groupId.getD []⟩
  else Except.error Err.envMissing

structure Button where
  label : List Char
  callbackData : List Char
  deriving DecidableEq, Repr

abbrev Keyboard := List (List Button)

inductive Effect where
  | forwardEvent (event : List Char) (chatId : List Char)
      (contentText : Option (List Char))
  | answerCallback (notice : Option (List Char))
  | sendPlatformText (chatId : List Char) (text : List Char)
      (keyboard : Option Keyboard)
  | sendPlatformPhoto (chatId : List Char) (photo : List Char)
      (caption : List Char) (keyboard : Option Keyboard)
  | sendPlatformDocument (chatId : List Char) (doc : List Char)
      (caption : List Char) (keyboard : Option Keyboard)
  | getFileCall (fileId : List Char)
  deriving DecidableEq, Repr

/-- Outcomes of the external world: whether each kind of call
succeeds, and the platform-assigned values returned on success. -/
structure Oracle where
  forwardOk : Bool
  answerOk : Bool
  sendOk : Bool
  sendResultId : Int
  getFileOk : Bool
  filePath : List Char
  deriving DecidableEq, Repr

/-- A computation: trace of attempted calls plus normal result or
escaped exception. -/
abbrev Proc (α : Type) := List Effect × Except Err α

def seqP {α β : Type} (a : Proc α) (f : α → Proc β) : Proc β :=
  match a with
  | (effs, Except.ok v) =>
    match f v with
    | (effs2, r) => (effs ++ effs2, r)
  | (effs, Except.error e) => (effs, Except.error e)

def discardP {α : Type} : Proc α → Proc Unit
  | (effs, Except.ok _) => (effs, Except.ok ())
  | (effs, Except.error e) => (effs, Except.error e)

/-- A `try/catch` whose catch block only logs. -/
def swallowP (a : Proc Unit) : Proc Unit := (a.1, Except.ok ())

/-- A `try/catch` with a fallible catch block. -/
def tryCatchP (a : Proc Unit) (h : Proc Unit) : Proc Unit :=
  match a with
  | (effs, Except.ok v) => (effs, Except.ok v)
  | (effs, Except.error _) =>
    match h with
    | (effs2, r) => (effs ++ effs2, r)

/-- A `try/catch` around an id-returning body whose catch returns
null. -/
def nullOnErr (a : Proc (Option Int)) : Proc (Option Int) :=
  match a with
  | (effs, Except.ok v) => (effs, Except.ok v)
  | (effs, Except.error _) => (effs, Except.ok none)

/-! ### Platform call wrappers (each goes through `makeApiCall`,
which reads the environment first and throws on HTTP failure). -/

def sendMessageCall (env : Env) (o : Oracle) (chatId text : List Char)
    (kb : Option Keyboard) : Proc Int :=
  match getEnv env with
  | Except.error e => ([], Except.error e)
  | Except.ok _ =>
    ([Effect.sendPlatformText chatId text kb],
     if o.sendOk then Except.ok o.sendResultId else Except.error Err.apiError)

def sendPhotoCall (env : Env) (o : Oracle) (chatId photo caption : List Char)
    (kb : Option Keyboard) : Proc Int :=
  match getEnv env with
  | Except.error e => ([], Except.error e)
  | Except.ok _ =>
    ([Effect.sendPlatformPhoto chatId photo caption kb],
     if o.sendOk then Except.ok o.sendResultId else Except.error Err.apiError)

def sendDocumentCall (env : Env) (o : Oracle) (chatId doc caption : List Char)
    (kb : Option Keyboard) : Proc Int :=
  match getEnv env with
  | Except.error e => ([], Except.error e)
  | Except.ok _ =>
    ([Effect.sendPlatformDocument chatId doc caption kb],
     if o.sendOk then Except.ok o.sendResultId else Except.error Err.apiError)

def answerCallbackQueryCall (env : Env) (o : Oracle)
    (txt : Option (List Char)) : Proc Unit :=
  match getEnv env with
  | Except.error e => ([], Except.error e)
  | Except.ok _ =>
    ([Effect.answerCallback txt],
     if o.answerOk then Except.ok () else Except.error Err.apiError)

/-- Embedding of `mainApiService.forwardUpdateToMainServer`: its own client, not
gated by the Telegram environment; rethrows HTTP failures. -/
def forwardUpdateToMainServer (o : Oracle) (event chatId : List Char)
    (contentText : Option (List Char)) : Proc Unit :=
  ([Effect.forwardEvent event chatId contentText],
   if o.forwardOk then Except.ok () else Except.error Err.forwardError)

/-- Embedding of `getFileUrl`: reads the environment outside its try block, then
converts any API failure into null. -/
def getFileUrl (env : Env) (o : Oracle) (fileId : List Char) :
    Proc (Option (List Char)) :=
  match getEnv env with
  | Except.error e => ([], Except.error e)
  | Except.ok ev =>
    ([Effect.getFileCall fileId],
     Except.ok (if o.getFileOk then
                  some (("https://api.telegram.org/file/bot".toList) ++
                        ev.botToken ++ ("/".toList) ++ o.filePath)
                else none))

/-! ### Inbound update values -/

structure ReplyTo where
  text : Option (List Char)
  deriving DecidableEq, Repr

/-- An inbound `message` payload.  `photoLastFileId` models
`message.photo?.[message.photo.length - 1].file_id` (photo arrays are
non-empty when present, a platform invariant). -/
structure TgMessage where
  chatIdStr : List Char
  messageId : Int
  text : Option (List Char)
  caption : Option (List Char)
  replyTo : Option ReplyTo
  photoLastFileId : Option (List Char)
  documentFileId : Option (List Char)
  documentFileName : Option (List Char)
  fromFirstName : List Char
  fromLastName : Option (List Char)
  fromIdStr : List Char
  deriving DecidableEq, Repr

/-- An inbound `callback_query` payload.  `messageChatIdStr` is the
chat of the message carrying the pressed button; the handler never
consults it. -/
structure CallbackQuery where
  id : List Char
  data : List Char
  fromFirstName : List Char
  fromLastName : Option (List Char)
  fromIdStr : List Char
  messageChatIdStr : List Char
  deriving DecidableEq, Repr

structure TgUpdate where
  message : Option TgMessage
  callback : Option CallbackQuery
  deriving DecidableEq, Repr

/-! ### Handlers (canonical class of telegram_service.ts) -/

/-- Embedding of `quickReplies[parseInt(parts[2], 10)]`: the canned reply selected
by the decoded extra argument (`parseInt(undefined, 10)` is NaN). -/
def quickLookup (parts : List (List Char)) : Option (List Char) :=
  jsIndex quickReplies
    (match parts[2]? with
     | some p => jsParseInt10 p
     | none => none)

def handleCommand (env : Env) (o : Oracle) (m : TgMessage) : Proc Unit :=
  let command := (firstWord (m.text.getD [])).map jsToLowerAscii
  if command = ("/start".toList) ∨ command = ("/status".toList) then
    discardP (sendMessageCall env o m.chatIdStr statusNotice none)
  else ([], Except.ok ())

def handleReplyMessage (env : Env) (o : Oracle) (gid : List Char)
    (m : TgMessage) (chatId : List Char) : Proc Unit :=
  tryCatchP
    (if truthyOpt m.text then
       forwardUpdateToMainServer o ("admin_message".toList) chatId m.text
     else
       let fileId := jsOrOpt m.photoLastFileId m.documentFileId
       seqP (if truthyOpt fileId then getFileUrl env o (fileId.getD [])
             else ([], Except.ok none))
            (fun _fileUrl =>
              forwardUpdateToMainServer o ("admin_message".toList) chatId
                (some (jsOrStr m.caption []))))
    (discardP (sendMessageCall env o gid (adminErrNotice chatId) none))

def handleMessage (env : Env) (o : Oracle) (m : TgMessage) : Proc Unit :=
  match getEnv env with
  | Except.error e => ([], Except.error e)
  | Except.ok ev =>
    let gid := ev.groupId
    let isReply := m.replyTo.isSome
    let isCommand : Bool :=
      match m.text with
      | some (c :: _) => c == '/'
      | _ => false
    let chatId :=
      if isReply then
        extractChatIdFromMessage
          (jsOrStr (m.replyTo.bind (fun r => r.text)) [])
      else none
    if m.chatIdStr ≠ gid then ([], Except.ok ())
    else if truthyOpt chatId = false ∧ isReply = true then ([], Except.ok ())
    else
      swallowP
        (if isCommand then handleCommand env o m
         else if isReply = true ∧ truthyOpt chatId = true then
           handleReplyMessage env o gid m (chatId.getD [])
         else ([], Except.ok ()))

def handleCallbackQueryBody (env : Env) (o : Oracle) (q : CallbackQuery) :
    Proc Unit :=
  let parts := splitOn '_' q.data
  let actionType := parts.headD []
  let chatIdPart := parts[1]?
  if truthyOpt chatIdPart = false then ([], Except.ok ())
  else
    let chatId := chatIdPart.getD []
    if actionType = ("quickmsg".toList) then
      let replyText := quickLookup parts
      if truthyOpt replyText then
        seqP (forwardUpdateToMainServer o ("admin_message".toList) chatId
                (some (replyText.getD [])))
             (fun _ => discardP (answerCallbackQueryCall env o (some sentNotice)))
      else discardP (answerCallbackQueryCall env o (some notFoundNotice))
    else
      let decoded : Option (List Char × List Char) :=
        if actionType = ("close".toList) then
          some (("chat_close".toList), closedNotice)
        else if actionType = ("assign".toList) then
          some (("chat_assign".toList), assignedNotice)
        else if actionType = ("replying".toList) then
          some (("admin_typing".toList), replyingNotice)
        else none
      match decoded with
      | none => ([], Except.ok ())
      | some (eventType, answerText) =>
        seqP (answerCallbackQueryCall env o (some answerText))
             (fun _ => forwardUpdateToMainServer o eventType chatId none)

def handleCallbackQuery (env : Env) (o : Oracle) (q : CallbackQuery) :
    Proc Unit :=
  swallowP (handleCallbackQueryBody env o q)

def handleUpdate (env : Env) (o : Oracle) (u : TgUpdate) : Proc Unit :=
  swallowP
    (match u.message with
     | some m => handleMessage env o m
     | none =>
       match u.callback with
       | some q => handleCallbackQuery env o q
       | none => ([], Except.ok ()))

/-- The webhook endpoint of app.ts: 200 when `handleUpdate` returns
normally, 500 when it throws. -/
def webhookStatus (env : Env) (o : Oracle) (u : TgUpdate) : Nat :=
  match (handleUpdate env o u).2 with
  | Except.ok _ => 200
  | Except.error _ => 500

/-! ## Outbound senders -/

def assignBtnData (chatId : List Char) : List Char :=
  ("assign_".toList) ++ chatId

def replyingBtnData (chatId : List Char) : List Char :=
  ("replying_".toList) ++ chatId

def closeBtnData (chatId : List Char) : List Char :=
  ("close_".toList) ++ chatId

/-- Inline keyboard of the canonical `sendMessageToTelegram`
(claim / replying / close, independent of conversation state). -/
def inlineKeyboard_v2 (chatId : List Char) : Keyboard :=
  [[⟨("👤 تخصیص به من".toList), assignBtnData chatId⟩,
    ⟨("📝 در حال پاسخ".toList), replyingBtnData chatId⟩,
    ⟨("🔴 بستن چت".toList), closeBtnData chatId⟩]]

/-- Canonical `sendMessageToTelegram`: per-request environment lookup,
read OUTSIDE the try block, so a missing configuration escapes as an
exception; every failure inside the try returns null. -/
def sendMessageToTelegram_v2 (env : Env) (o : Oracle) (chat : ChatV)
    (msg : MessageV) : Proc (Option Int) :=
  match getEnv env with
  | Except.error e => ([], Except.error e)
  | Except.ok ev =>
    if truthyStr ev.groupId = false then ([], Except.ok none)
    else
      nullOnErr
        (let messageText := formatMessageForTelegram chat msg
         let kb := inlineKeyboard_v2 chat.chatId
         if msg.contentType = ContentType.text then
           seqP (sendMessageCall env o ev.groupId messageText (some kb))
                (fun mid => ([], Except.ok (some mid)))
         else if msg.contentType = ContentType.image ∧
                  truthyOpt msg.fileUrl = true then
           seqP (sendPhotoCall env o ev.groupId (msg.fileUrl.getD [])
                   messageText (some kb))
                (fun mid => ([], Except.ok (some mid)))
         else if msg.contentType = ContentType.file ∧
                  truthyOpt msg.fileUrl = true then
           seqP (sendDocumentCall env o ev.groupId (msg.fileUrl.getD [])
                   messageText (some kb))
                (fun mid => ([], Except.ok (some mid)))
         else ([], Except.ok none))

/-- Inline keyboard of the first (connection-flag) service class:
claim and close only. -/
def inlineKeyboard_v1 (chatId : List Char) : Keyboard :=
  [[⟨("👤 تخصیص به من".toList), assignBtnData chatId⟩,
    ⟨("🔴 بستن چت".toList), closeBtnData chatId⟩]]

/-- Embedding of `makeApiCall` of the connection-flag classes: throws when the
client or token was never initialised (`ready = false`), otherwise the
HTTP outcome follows the oracle. -/
def sendTextCall_v1 (ready : Bool) (o : Oracle) (chatId text : List Char)
    (kb : Option Keyboard) : Proc Int :=
  if ready = false then ([], Except.error Err.apiError)
  else
    ([Effect.sendPlatformText chatId text kb],
     if o.sendOk then Except.ok o.sendResultId else Except.error Err.apiError)

def sendPhotoCall_v1 (ready : Bool) (o : Oracle) (chatId photo caption : List Char)
    (kb : Option Keyboard) : Proc Int :=
  if ready = false then ([], Except.error Err.apiError)
  else
    ([Effect.sendPlatformPhoto chatId photo caption kb],
     if o.sendOk then Except.ok o.sendResultId else Except.error Err.apiError)

def sendDocumentCall_v1 (ready : Bool) (o : Oracle) (chatId doc caption : List Char)
    (kb : Option Keyboard) : Proc Int :=
  if ready = false then ([], Except.error Err.apiError)
  else
    ([Effect.sendPlatformDocument chatId doc caption kb],
     if o.sendOk then Except.ok o.sendResultId else Except.error Err.apiError)

/-- Embedding of `sendMessageToTelegram` of the first service class (lines
300-344): gated by the connection flag, everything else inside
try/catch returning null. -/
def sendMessageToTelegram_v1 (conn : Bool) (gid : Option (List Char))
    (ready : Bool) (o : Oracle) (chat : ChatV) (msg : MessageV) :
    Proc (Option Int) :=
  if conn = false ∨ truthyOpt gid = false then ([], Except.ok none)
  else
    nullOnErr
      (let messageText := formatMessageForTelegram chat msg
       let kb := inlineKeyboard_v1 chat.chatId
       let g := gid.getD []
       if msg.contentType = ContentType.text then
         seqP (sendTextCall_v1 ready o g messageText (some kb))
              (fun mid => ([], Except.ok (some mid)))
       else if msg.contentType = ContentType.image ∧
                truthyOpt msg.fileUrl = true then
         seqP (sendPhotoCall_v1 ready o g (msg.fileUrl.getD [])
                 messageText (some kb))
              (fun mid => ([], Except.ok (some mid)))
       else if msg.contentType = ContentType.file ∧
                truthyOpt msg.fileUrl = true then
         seqP (sendDocumentCall_v1 ready o g (msg.fileUrl.getD [])
                 messageText (some kb))
              (fun mid => ([], Except.ok (some mid)))
       else ([], Except.ok none))

/-- Inline keyboard of the src/unnamed/part_006 variant: the claim
button is present only while the conversation is unassigned. -/
def inlineKeyboard_p6 (chat : ChatV) : Keyboard :=
  if truthyOpt chat.assignedAdminTelegramId then
    [[⟨("✅ پاسخ سریع".toList), ("quick_".toList) ++ chat.chatId⟩,
      ⟨("🏷️ تگ".toList), ("tag_".toList) ++ chat.chatId⟩],
     [⟨("🔴 بستن".toList), closeBtnData chat.chatId⟩]]
  else
    [[⟨("✅ پاسخ سریع".toList), ("quick_".toList) ++ chat.chatId⟩,
      ⟨("🏷️ تگ".toList), ("tag_".toList) ++ chat.chatId⟩],
     [⟨("👤 تخصیص".toList), assignBtnData chat.chatId⟩,
      ⟨("🔴 بستن".toList), closeBtnData chat.chatId⟩]]

/-- Embedding of `formatMessageForTelegram` of the part_006 variant (no HTML tags,
page line always present, `undefined` body rendered literally). -/
def formatMessageForTelegram_p6 (chat : ChatV) (msg : MessageV) : List Char :=
  ("💬 پیام جدید از ".toList) ++ userInfoOf chat ++ ("\n".toList) ++
  ("🆔 Chat ID: ".toList) ++ chat.chatId ++ ("\n".toList) ++
  ("⏰ ".toList) ++ msg.timestampRendered ++ ("\n".toList) ++
  ("📍 صفحه: ".toList) ++ jsOrStr chat.currentPage ("نامشخص".toList) ++
  ("\n".toList) ++
  (match chat.tags with
   | some ts => if ts.length > 0
                then ("🏷️ تگ‌ها: ".toList) ++ joinTags ts ++ ("\n".toList)
                else []
   | none => []) ++
  ("\n📝 پیام:\n".toList) ++ jsStr msg.contentText

/-- Embedding of `sendMessageToTelegram` of the part_006 variant: connection-flag
gate, assignment-dependent keyboard, no fileUrl guard on the media
branches (an absent url is passed through as the empty string). -/
def sendMessageToTelegram_p6 (conn : Bool) (gid : Option (List Char))
    (ready : Bool) (o : Oracle) (chat : ChatV) (msg : MessageV) :
    Proc (Option Int) :=
  if conn = false ∨ truthyOpt gid = false then ([], Except.ok none)
  else
    nullOnErr
      (let messageText := formatMessageForTelegram_p6 chat msg
       let kb := inlineKeyboard_p6 chat
       let g := gid.getD []
       if msg.contentType = ContentType.text then
         seqP (sendTextCall_v1 ready o g messageText (some kb))
              (fun mid => ([], Except.ok (some mid)))
       else if msg.contentType = ContentType.image then
         seqP (sendPhotoCall_v1 ready o g (msg.fileUrl.getD [])
                 messageText (some kb))
              (fun mid => ([], Except.ok (some mid)))
       else if msg.contentType = ContentType.file then
         seqP (sendDocumentCall_v1 ready o g (msg.fileUrl.getD [])
                 messageText (some kb))
              (fun mid => ([], Except.ok (some mid)))
       else ([], Except.ok none))

/-! ### Trace inspection helpers for the claim statements -/

def isForwardEffect : Effect → Bool
  | Effect.forwardEvent _ _ _ => true
  | _ => false

/-- The (event, chatId) pairs of the forwarded events of a trace. -/
def forwardedPairs (effs : List Effect) : List (List Char × List Char) :=
  effs.filterMap fun e =>
    match e with
    | Effect.forwardEvent ev cid _ => some (ev, cid)
    | _ => none

def countForwards (effs : List Effect) : Nat :=
  (effs.filter isForwardEffect).length

/-- The keyboards attached to the platform send calls of a trace. -/
def sentKeyboards (effs : List Effect) : List (Option Keyboard) :=
  effs.filterMap fun e =>
    match e with
    | Effect.sendPlatformText _ _ kb => some kb
    | Effect.sendPlatformPhoto _ _ _ kb => some kb
    | Effect.sendPlatformDocument _ _ _ kb => some kb
    | _ => none

def kbContainsData (kb : Keyboard) (d : List Char) : Bool :=
  kb.any fun row => row.any fun b => b.callbackData == d

def isOkE {α : Type} : Except Err α → Bool
  | Except.ok _ => true
  | Except.error _ => false

/-! ## Shared concrete fixtures for witnesses and counterexamples -/

def okEnv : Env := { botToken := some ("T".toList), groupId := some ("G".toList) }

def noEnv : Env := { botToken := none, groupId := none }

def okOracle : Oracle :=
  { forwardOk := true, answerOk := true, sendOk := true,
    sendResultId := 42, getFileOk := true, filePath := ("f".toList) }

def failSendOracle : Oracle := { okOracle with sendOk := false }

def mkCb (data : List Char) : CallbackQuery :=
  { id := ("1".toList), data := data, fromFirstName := ("A".toList),
    fromLastName := none, fromIdStr := ("7".toList),
    messageChatIdStr := ("G".toList) }

/-! ## Claims about the router -/

/-- Claim C7: every inbound update is handled to completion — the
try/catch at the `handleUpdate` boundary converts every escaped
exception into a logged no-op, so the webhook acknowledgment always
reports success. -/
theorem C7_handleUpdate_never_throws (env : Env) (o : Oracle) (u : TgUpdate) :
    (handleUpdate env o u).2 = Except.ok () ∧ webhookStatus env o u = 200 := by
  refine ⟨rfl, ?_⟩
  unfold webhookStatus
  rfl

/-- Claim C10: a callback token with no non-empty second
underscore-separated segment is dropped before any call is attempted:
no event is forwarded and the button press is not even acknowledged. -/
theorem C10_emptyRef_noop (env : Env) (o : Oracle) (q : CallbackQuery)
    (h : truthyOpt ((splitOn '_' q.data)[1]?) = false) :
    handleCallbackQuery env o q = ([], Except.ok ()) := by
  unfold handleCallbackQuery handleCallbackQueryBody
  simp [h, swallowP]

theorem C10_witness :
    handleCallbackQuery okEnv okOracle (mkCb ("close_".toList)) =
      ([], Except.ok ()) :=
  C10_emptyRef_noop okEnv okOracle (mkCb ("close_".toList)) (by decide)

/-! ### Split lemmas for the action-token mini-protocol -/

theorem splitOn_not_mem (sep : Char) : ∀ (s : List Char), sep ∉ s →
    splitOn sep s = [s]
  | [], _ => rfl
  | c :: cs, h => by
    have hc : (c == sep) = false := by
      simp only [beq_eq_false_iff_ne]
      intro e
      exact h (by simp [e])
    have hcs : sep ∉ cs := fun m => h (List.mem_cons_of_mem c m)
    simp only [splitOn, hc]
    rw [splitOn_not_mem sep cs hcs]
    simp

theorem splitOn_append (sep : Char) : ∀ (pre rest : List Char), sep ∉ pre →
    splitOn sep (pre ++ sep :: rest) = pre :: splitOn sep rest
  | [], rest, _ => by simp [splitOn]
  | c :: cs, rest, h => by
    have hc : (c == sep) = false := by
      simp only [beq_eq_false_iff_ne]
      intro e
      exact h (by simp [e])
    have hcs : sep ∉ cs := fun m => h (List.mem_cons_of_mem c m)
    simp only [List.cons_append, splitOn, hc, List.append_eq,
      Bool.false_eq_true, if_false]
    rw [splitOn_append sep cs rest hcs]

/-- Claim C3 (amended): for every non-empty ConversationRef over the
token alphabet WITHOUT the underscore delimiter, the close token
attached by the sender round-trips: the handler acknowledges the press
with the closed notice and forwards exactly one chat_close event whose
chatId is the full ref. -/
theorem C3_close_roundtrip (env : Env) (o : Oracle) (q : CallbackQuery)
    (ref : List Char)
    (henv1 : truthyOpt env.botToken = true)
    (henv2 : truthyOpt env.groupId = true)
    (hans : o.answerOk = true)
    (href1 : ref ≠ [])
    (href2 : ∀ c ∈ ref, isTokenChar c = true ∧ c ≠ '_')
    (hdata : q.data = closeBtnData ref) :
    handleCallbackQuery env o q =
      ([Effect.answerCallback (some closedNotice),
        Effect.forwardEvent ("chat_close".toList) ref none],
       Except.ok ()) := by
  have hsep : '_' ∉ ref := fun m => (href2 '_' m).2 rfl
  have hparts : splitOn '_' q.data = [("close".toList), ref] := by
    rw [hdata]
    have e : closeBtnData ref = ("close".toList) ++ '_' :: ref := by
      unfold closeBtnData
      rw [show ("close_".toList) = ("close".toList) ++ ['_'] from by decide,
          List.append_assoc]
      rfl
    rw [e, splitOn_append '_' ("close".toList) ref (by decide),
        splitOn_not_mem '_' ref hsep]
  have htr : truthyOpt (some ref) = true := by
    cases ref with
    | nil => exact absurd rfl href1
    | cons c cs => rfl
  unfold handleCallbackQuery handleCallbackQueryBody
  rw [hparts]
  simp only [List.headD, List.getElem?_cons_succ, List.getElem?_cons_zero,
    Option.getD_some, htr]
  rw [if_neg (by simp)]
  rw [if_neg (by decide)]
  rw [if_pos (by decide)]
  unfold answerCallbackQueryCall forwardUpdateToMainServer getEnv
  simp [henv1, henv2, hans, seqP, swallowP]

theorem C3_witness :
    handleCallbackQuery okEnv okOracle (mkCb (closeBtnData ("abc-123".toList))) =
      ([Effect.answerCallback (some closedNotice),
        Effect.forwardEvent ("chat_close".toList) ("abc-123".toList) none],
       Except.ok ()) :=
  C3_close_roundtrip okEnv okOracle (mkCb (closeBtnData ("abc-123".toList)))
    ("abc-123".toList) (by decide) (by decide) (by decide) (by decide)
    (by decide) rfl

/-- Claim C3 (counterexample): the legal token alphabet includes the
underscore, but a ref containing it does not round-trip — for the ref
`a_b` the handler forwards chat_close with chatId `a`, not `a_b`. -/
theorem C3_counterexample :
    forwardedPairs
        (handleCallbackQuery okEnv okOracle (mkCb (closeBtnData ("a_b".toList)))).1 =
      [(("chat_close".toList), ("a".toList))] ∧
    (("a".toList) : List Char) ≠ ("a_b".toList) ∧
    (("a_b".toList) : List Char).all isTokenChar = true := by
  decide

theorem jsIndex_mem {l : List (List Char)} {i : Option Int} {t : List Char}
    (h : jsIndex l i = some t) : t ∈ l := by
  cases i with
  | none => simp [jsIndex] at h
  | some n =>
    simp only [jsIndex] at h
    by_cases hn : 0 ≤ n
    · rw [if_pos hn] at h
      exact List.getElem?_mem h
    · rw [if_neg hn] at h
      exact absurd h (by simp)

theorem quickReplies_nonempty_entries {t : List Char}
    (h : t ∈ quickReplies) : truthyStr t = true := by
  have hall : ∀ x ∈ quickReplies, truthyStr x = true := by decide
  exact hall t h

/-- Claim C6: on a quickmsg callback with a non-empty ref, an index
outside the canned-list bounds (including NaN) acknowledges with the
not-found notice and forwards nothing, while an in-bounds index
forwards exactly one admin_message carrying the canned text and then
acknowledges with the sent notice. -/
theorem C6_quickmsg (env : Env) (o : Oracle) (q : CallbackQuery)
    (ref : List Char)
    (henv1 : truthyOpt env.botToken = true)
    (henv2 : truthyOpt env.groupId = true)
    (hfwd : o.forwardOk = true)
    (hparts0 : (splitOn '_' q.data).headD [] = ("quickmsg".toList))
    (hparts1 : (splitOn '_' q.data)[1]? = some ref)
    (href : ref ≠ []) :
    (quickLookup (splitOn '_' q.data) = none →
       handleCallbackQuery env o q =
         ([Effect.answerCallback (some notFoundNotice)], Except.ok ())) ∧
    (∀ t, quickLookup (splitOn '_' q.data) = some t →
       handleCallbackQuery env o q =
         ([Effect.forwardEvent ("admin_message".toList) ref (some t),
           Effect.answerCallback (some sentNotice)], Except.ok ())) := by
  have htr : truthyStr ref = true := by
    cases ref with
    | nil => exact absurd rfl href
    | cons c cs => rfl
  have h1 : truthyOpt (some ref) = true := htr
  have h3 : truthyOpt (none : Option (List Char)) = false := rfl
  obtain ⟨rest2, hp⟩ :
      ∃ r2, splitOn '_' q.data = ("quickmsg".toList) :: ref :: r2 := by
    cases hsp : splitOn '_' q.data with
    | nil =>
      rw [hsp] at hparts1
      exact absurd hparts1 (by simp)
    | cons a rest =>
      cases rest with
      | nil =>
        rw [hsp] at hparts1
        exact absurd hparts1 (by simp)
      | cons b r2 =>
        rw [hsp] at hparts0 hparts1
        simp only [List.headD_cons] at hparts0
        simp only [List.getElem?_cons_succ, List.getElem?_cons_zero,
          Option.some.injEq] at hparts1
        exact ⟨r2, by rw [hparts0, hparts1]⟩
  constructor
  · intro hnone
    rw [hp] at hnone
    simp only [handleCallbackQuery, handleCallbackQueryBody, hp]
    simp only [hnone]
    simp [List.headD_cons, h1, h3, answerCallbackQueryCall,
      getEnv, henv1, henv2, discardP, swallowP]
    cases ho : o.answerOk <;> simp [ho]
  · intro t hsome
    have htt : truthyStr t = true :=
      quickReplies_nonempty_entries (jsIndex_mem (by
        unfold quickLookup at hsome
        exact hsome))
    have h2 : truthyOpt (some t) = true := htt
    rw [hp] at hsome
    simp only [handleCallbackQuery, handleCallbackQueryBody, hp]
    simp only [hsome]
    simp [List.headD_cons, h1, h2, forwardUpdateToMainServer,
      answerCallbackQueryCall, getEnv, henv1, henv2, hfwd, seqP,
      discardP, swallowP]
    cases ho : o.answerOk <;> simp [ho]

theorem C6_witness :
    (handleCallbackQuery okEnv okOracle (mkCb ("quickmsg_abc_9".toList)) =
       ([Effect.answerCallback (some notFoundNotice)], Except.ok ())) ∧
    (handleCallbackQuery okEnv okOracle (mkCb ("quickmsg_abc_1".toList)) =
       ([Effect.forwardEvent ("admin_message".toList) ("abc".toList)
           (some (("لطفاً کمی صبر کنید، در حال بررسی موضوع هستم.".toList))),
         Effect.answerCallback (some sentNotice)], Except.ok ())) :=
  ⟨(C6_quickmsg okEnv okOracle (mkCb ("quickmsg_abc_9".toList)) ("abc".toList)
      (by decide) (by decide) (by decide) (by decide) (by decide)
      (by decide)).1 (by decide),
   (C6_quickmsg okEnv okOracle (mkCb ("quickmsg_abc_1".toList)) ("abc".toList)
      (by decide) (by decide) (by decide) (by decide) (by decide)
      (by decide)).2 _ (by decide)⟩

theorem handleCommand_no_forwards (env : Env) (o : Oracle) (m : TgMessage) :
    countForwards (handleCommand env o m).1 = 0 := by
  unfold handleCommand
  by_cases h : ((firstWord (m.text.getD [])).map jsToLowerAscii =
                  ("/start".toList) ∨
                (firstWord (m.text.getD [])).map jsToLowerAscii =
                  ("/status".toList))
  · rw [if_pos h]
    cases hge : getEnv env with
    | error e => simp [discardP, sendMessageCall, hge, countForwards]
    | ok ev =>
      cases hok : o.sendOk <;>
        simp [discardP, sendMessageCall, hge, hok, countForwards,
          isForwardEffect]
  · rw [if_neg h]
    rfl

/-- Claim C4 (amended): a control-group message that is BOTH a reply
with an extractable ConversationRef AND a slash command is dispatched
as a command — the command branch wins and no admin_message event is
forwarded. -/
theorem C4_command_priority (env : Env) (o : Oracle) (m : TgMessage)
    (henv1 : truthyOpt env.botToken = true)
    (henv2 : truthyOpt env.groupId = true)
    (hchat : m.chatIdStr = env.groupId.getD [])
    (hcmd : ∃ rest, m.text = some ('/' :: rest))
    (hreply : m.replyTo.isSome = true)
    (hext : truthyOpt (extractChatIdFromMessage
              (jsOrStr (m.replyTo.bind (fun r => r.text)) [])) = true) :
    handleMessage env o m = swallowP (handleCommand env o m) ∧
    countForwards (handleMessage env o m).1 = 0 := by
  obtain ⟨rest, htext⟩ := hcmd
  have hgE : getEnv env =
      Except.ok ⟨env.botToken.getD [], env.groupId.getD []⟩ := by
    unfold getEnv
    simp [henv1, henv2]
  have main : handleMessage env o m = swallowP (handleCommand env o m) := by
    unfold handleMessage
    rw [hgE]
    simp only [htext, hreply, hext, hchat]
    simp [hext, hreply]
  refine ⟨main, ?_⟩
  rw [main]
  exact handleCommand_no_forwards env o m

/-- The concrete message of claim C4: simultaneously a slash command
and a reply quoting an extractable ref. -/
def cmdReplyMsg : TgMessage :=
  { chatIdStr := ("G".toList), messageId := 1,
    text := some ("/start".toList), caption := none,
    replyTo := some { text := some ("🆔 Chat ID: abc".toList) },
    photoLastFileId := none, documentFileId := none,
    documentFileName := none, fromFirstName := ("A".toList),
    fromLastName := none, fromIdStr := ("7".toList) }

theorem C4_witness :
    handleMessage okEnv okOracle cmdReplyMsg =
      swallowP (handleCommand okEnv okOracle cmdReplyMsg) ∧
    countForwards (handleMessage okEnv okOracle cmdReplyMsg).1 = 0 :=
  C4_command_priority okEnv okOracle cmdReplyMsg (by decide) (by decide)
    (by decide) ⟨("start".toList), rfl⟩ (by decide) (by decide)

/-- Claim C4 (counterexample): on a message that is both a reply with
an extractable ref and a command, the router emits the command's
status reply and forwards NO admin_message at all — the claimed
reply-over-command priority fails. -/
theorem C4_counterexample :
    (∃ rest, cmdReplyMsg.text = some ('/' :: rest)) ∧
    cmdReplyMsg.replyTo.isSome = true ∧
    extractChatIdFromMessage
        (jsOrStr (cmdReplyMsg.replyTo.bind (fun r => r.text)) []) =
      some ("abc".toList) ∧
    cmdReplyMsg.chatIdStr = okEnv.groupId.getD [] ∧
    countForwards (handleMessage okEnv okOracle cmdReplyMsg).1 = 0 ∧
    (handleMessage okEnv okOracle cmdReplyMsg).1 =
      [Effect.sendPlatformText ("G".toList) statusNotice none] := by
  refine ⟨⟨("start".toList), rfl⟩, ?_⟩
  decide

/-- Claim C5 (amended): a MESSAGE update whose chat is not the control
group is a complete no-op; callback updates carry no such guard. -/
theorem C5_nonGroup_message_noop (env : Env) (o : Oracle) (m : TgMessage)
    (cb : Option CallbackQuery)
    (h : m.chatIdStr ≠ env.groupId.getD []) :
    handleUpdate env o { message := some m, callback := cb } =
      ([], Except.ok ()) := by
  unfold handleUpdate handleMessage
  cases hge : getEnv env with
  | error e => simp [hge, swallowP]
  | ok ev =>
    have hgid : ev.groupId = env.groupId.getD [] := by
      unfold getEnv at hge
      by_cases hb : (truthyOpt env.botToken && truthyOpt env.groupId) = true
      · rw [if_pos hb] at hge
        cases hge
        rfl
      · rw [if_neg hb] at hge
        cases hge
    simp [hge, swallowP, hgid, h]

def strayMsg : TgMessage := { cmdReplyMsg with chatIdStr := ("999".toList) }

theorem C5_witness :
    handleUpdate okEnv okOracle { message := some strayMsg, callback := none } =
      ([], Except.ok ()) :=
  C5_nonGroup_message_noop okEnv okOracle strayMsg none (by decide)

def strayCb : CallbackQuery :=
  { id := ("1".toList), data := ("close_abc".toList),
    fromFirstName := ("A".toList), fromLastName := none,
    fromIdStr := ("7".toList), messageChatIdStr := ("999".toList) }

/-- Claim C5 (counterexample): a callback update originating from a
chat that is NOT the control group is still processed in full — the
press is acknowledged and a chat_close event is forwarded, refuting
the claimed guard for callback updates. -/
theorem C5_counterexample :
    strayCb.messageChatIdStr ≠ okEnv.groupId.getD [] ∧
    (handleUpdate okEnv okOracle
        { message := none, callback := some strayCb }).1 =
      [Effect.answerCallback (some closedNotice),
       Effect.forwardEvent ("chat_close".toList) ("abc".toList) none] := by
  decide

theorem isOkE_nullOnErr (a : Proc (Option Int)) :
    isOkE (nullOnErr a).2 = true := by
  rcases a with ⟨effs, r⟩
  cases r <;> rfl

theorem nullOnErr_snd_of (a : Proc (Option Int))
    (h : ∀ v, a.2 = Except.ok v → v = none) :
    (nullOnErr a).2 = Except.ok none := by
  rcases a with ⟨effs, r⟩
  cases r with
  | ok v => simpa [nullOnErr] using h v rfl
  | error e => rfl

theorem getEnv_ok (env : Env)
    (h1 : truthyOpt env.botToken = true) (h2 : truthyOpt env.groupId = true) :
    getEnv env = Except.ok ⟨env.botToken.getD [], env.groupId.getD []⟩ := by
  unfold getEnv
  simp [h1, h2]

theorem truthyStr_getD (x : Option (List Char)) (h : truthyOpt x = true) :
    truthyStr (x.getD []) = true := by
  cases x with
  | none => exact absurd h (by simp [truthyOpt])
  | some s => exact h

/-- Claim C8 (amended): the connection-flag variant never raises and
returns null whenever the channel is unusable or a send step fails;
the per-request-env variant behaves the same PROVIDED the
configuration is present (its env lookup sits outside the try block),
and returns the platform-assigned id on a successful text send. -/
theorem C8_send_fail_soft :
    (∀ (gid : Option (List Char)) (ready : Bool) (o : Oracle)
        (chat : ChatV) (msg : MessageV),
       sendMessageToTelegram_v1 false gid ready o chat msg =
         ([], Except.ok none)) ∧
    (∀ (conn : Bool) (gid : Option (List Char)) (ready : Bool) (o : Oracle)
        (chat : ChatV) (msg : MessageV),
       isOkE (sendMessageToTelegram_v1 conn gid ready o chat msg).2 = true) ∧
    (∀ (env : Env) (o : Oracle) (chat : ChatV) (msg : MessageV),
       truthyOpt env.botToken = true → truthyOpt env.groupId = true →
       isOkE (sendMessageToTelegram_v2 env o chat msg).2 = true) ∧
    (∀ (env : Env) (o : Oracle) (chat : ChatV) (msg : MessageV),
       truthyOpt env.botToken = true → truthyOpt env.groupId = true →
       o.sendOk = false →
       (sendMessageToTelegram_v2 env o chat msg).2 = Except.ok none) ∧
    (∀ (env : Env) (o : Oracle) (chat : ChatV) (msg : MessageV),
       truthyOpt env.botToken = true → truthyOpt env.groupId = true →
       o.sendOk = true → msg.contentType = ContentType.text →
       sendMessageToTelegram_v2 env o chat msg =
         ([Effect.sendPlatformText (env.groupId.getD [])
             (formatMessageForTelegram chat msg)
             (some (inlineKeyboard_v2 chat.chatId))],
          Except.ok (some o.sendResultId))) := by
  refine ⟨?_, ?_, ?_, ?_, ?_⟩
  · intro gid ready o chat msg
    unfold sendMessageToTelegram_v1
    simp
  · intro conn gid ready o chat msg
    unfold sendMessageToTelegram_v1
    by_cases hg : (conn = false ∨ truthyOpt gid = false)
    · rw [if_pos hg]
      rfl
    · rw [if_neg hg]
      exact isOkE_nullOnErr _
  · intro env o chat msg h1 h2
    unfold sendMessageToTelegram_v2
    rw [getEnv_ok env h1 h2]
    simp only [truthyStr_getD env.groupId h2, Bool.true_eq_false, if_false]
    exact isOkE_nullOnErr _
  · intro env o chat msg h1 h2 hs
    unfold sendMessageToTelegram_v2
    rw [getEnv_ok env h1 h2]
    simp only [truthyStr_getD env.groupId h2, Bool.true_eq_false, if_false]
    apply nullOnErr_snd_of
    intro v hv
    revert hv
    split
    · simp [seqP, sendMessageCall, getEnv_ok env h1 h2, hs]
    · split
      · simp [seqP, sendPhotoCall, getEnv_ok env h1 h2, hs]
      · split
        · simp [seqP, sendDocumentCall, getEnv_ok env h1 h2, hs]
        · intro hv
          injection hv with h
          exact h.symm
  · intro env o chat msg h1 h2 hs htext
    unfold sendMessageToTelegram_v2
    rw [getEnv_ok env h1 h2]
    simp only [truthyStr_getD env.groupId h2, Bool.true_eq_false, if_false]
    rw [if_pos htext]
    simp [seqP, sendMessageCall, getEnv_ok env h1 h2, hs, nullOnErr]

theorem C8_witness :
    sendMessageToTelegram_v1 false (some ("G".toList)) true okOracle
        wChat wMsg = ([], Except.ok none) ∧
    isOkE (sendMessageToTelegram_v1 true (some ("G".toList)) true okOracle
        wChat wMsg).2 = true ∧
    isOkE (sendMessageToTelegram_v2 okEnv okOracle wChat wMsg).2 = true ∧
    (sendMessageToTelegram_v2 okEnv failSendOracle wChat wMsg).2 =
      Except.ok none ∧
    sendMessageToTelegram_v2 okEnv okOracle wChat wMsg =
      ([Effect.sendPlatformText (okEnv.groupId.getD [])
          (formatMessageForTelegram wChat wMsg)
          (some (inlineKeyboard_v2 wChat.chatId))],
       Except.ok (some okOracle.sendResultId)) :=
  ⟨C8_send_fail_soft.1 (some ("G".toList)) true okOracle wChat wMsg,
   C8_send_fail_soft.2.1 true (some ("G".toList)) true okOracle wChat wMsg,
   C8_send_fail_soft.2.2.1 okEnv okOracle wChat wMsg (by decide) (by decide),
   C8_send_fail_soft.2.2.2.1 okEnv failSendOracle wChat wMsg (by decide)
     (by decide) (by decide),
   C8_send_fail_soft.2.2.2.2 okEnv okOracle wChat wMsg (by decide)
     (by decide) (by decide) (by decide)⟩

/-- Claim C8 (counterexample): with the configuration missing, the
canonical per-request variant RAISES instead of returning null — the
env lookup sits before its try block. -/
theorem C8_counterexample :
    sendMessageToTelegram_v2 noEnv okOracle wChat wMsg =
      ([], Except.error Err.envMissing) := rfl

theorem sendV2_text_trace (env : Env) (o : Oracle) (chat : ChatV)
    (msg : MessageV)
    (h1 : truthyOpt env.botToken = true) (h2 : truthyOpt env.groupId = true)
    (htext : msg.contentType = ContentType.text) :
    (sendMessageToTelegram_v2 env o chat msg).1 =
      [Effect.sendPlatformText (env.groupId.getD [])
         (formatMessageForTelegram chat msg)
         (some (inlineKeyboard_v2 chat.chatId))] := by
  unfold sendMessageToTelegram_v2
  rw [getEnv_ok env h1 h2]
  simp only [truthyStr_getD env.groupId h2, Bool.true_eq_false, if_false]
  rw [if_pos htext]
  cases ho : o.sendOk <;>
    simp [seqP, sendMessageCall, getEnv_ok env h1 h2, ho, nullOnErr]

theorem sendP6_text_trace (gid : Option (List Char)) (o : Oracle)
    (chat : ChatV) (msg : MessageV)
    (hg : truthyOpt gid = true)
    (htext : msg.contentType = ContentType.text) :
    (sendMessageToTelegram_p6 true gid true o chat msg).1 =
      [Effect.sendPlatformText (gid.getD [])
         (formatMessageForTelegram_p6 chat msg)
         (some (inlineKeyboard_p6 chat))] := by
  unfold sendMessageToTelegram_p6
  rw [if_neg (by simp [hg])]
  rw [if_pos htext]
  cases ho : o.sendOk <;>
    simp [seqP, sendTextCall_v1, ho, nullOnErr]

theorem quick_ne_assign (cid : List Char) :
    ((("quick_".toList) ++ cid) == assignBtnData cid) = false := rfl

theorem tag_ne_assign (cid : List Char) :
    ((("tag_".toList) ++ cid) == assignBtnData cid) = false := rfl

theorem close_ne_assign (cid : List Char) :
    ((closeBtnData cid) == assignBtnData cid) = false := rfl

/-- Claim C9 (amended): for Text sends the part_006 variant includes
both claim and close while unclaimed and omits the claim button when
claimed; the canonical (delegating) variant attaches the same fixed
claim/replying/close set regardless of the assignment state. -/
theorem C9_keyboard_composition :
    (∀ (env : Env) (o : Oracle) (chat : ChatV) (msg : MessageV),
       truthyOpt env.botToken = true → truthyOpt env.groupId = true →
       msg.contentType = ContentType.text →
       sentKeyboards (sendMessageToTelegram_v2 env o chat msg).1 =
         [some (inlineKeyboard_v2 chat.chatId)]) ∧
    (∀ chat : ChatV,
       kbContainsData (inlineKeyboard_v2 chat.chatId)
           (assignBtnData chat.chatId) = true ∧
       kbContainsData (inlineKeyboard_v2 chat.chatId)
           (closeBtnData chat.chatId) = true) ∧
    (∀ (gid : Option (List Char)) (o : Oracle) (chat : ChatV) (msg : MessageV),
       truthyOpt gid = true → msg.contentType = ContentType.text →
       sentKeyboards (sendMessageToTelegram_p6 true gid true o chat msg).1 =
         [some (inlineKeyboard_p6 chat)]) ∧
    (∀ chat : ChatV, truthyOpt chat.assignedAdminTelegramId = false →
       kbContainsData (inlineKeyboard_p6 chat)
           (assignBtnData chat.chatId) = true ∧
       kbContainsData (inlineKeyboard_p6 chat)
           (closeBtnData chat.chatId) = true) ∧
    (∀ chat : ChatV, truthyOpt chat.assignedAdminTelegramId = true →
       kbContainsData (inlineKeyboard_p6 chat)
           (assignBtnData chat.chatId) = false ∧
       kbContainsData (inlineKeyboard_p6 chat)
           (closeBtnData chat.chatId) = true) := by
  refine ⟨?_, ?_, ?_, ?_, ?_⟩
  · intro env o chat msg h1 h2 htext
    rw [sendV2_text_trace env o chat msg h1 h2 htext]
    simp [sentKeyboards]
  · intro chat
    constructor <;> simp [kbContainsData, inlineKeyboard_v2]
  · intro gid o chat msg hg htext
    rw [sendP6_text_trace gid o chat msg hg htext]
    simp [sentKeyboards]
  · intro chat h
    constructor <;> simp [kbContainsData, inlineKeyboard_p6, h]
  · intro chat h
    constructor
    · simp [kbContainsData, inlineKeyboard_p6, h, quick_ne_assign,
        tag_ne_assign, close_ne_assign]
      constructor
      · rw [show assignBtnData chat.chatId =
              'a' :: (("ssign_".toList) ++ chat.chatId) from rfl]
        intro he
        injection he with hh _
        exact absurd hh (by decide)
      · rw [show assignBtnData chat.chatId =
              'a' :: (("ssign_".toList) ++ chat.chatId) from rfl]
        intro he
        injection he with hh _
        exact absurd hh (by decide)
    · simp [kbContainsData, inlineKeyboard_p6, h]

def claimedChat : ChatV := { wChat with assignedAdminTelegramId := some ("55".toList) }

theorem C9_witness :
    sentKeyboards (sendMessageToTelegram_v2 okEnv okOracle wChat wMsg).1 =
      [some (inlineKeyboard_v2 wChat.chatId)] ∧
    kbContainsData (inlineKeyboard_p6 wChat) (assignBtnData wChat.chatId) =
      true ∧
    kbContainsData (inlineKeyboard_p6 claimedChat)
      (assignBtnData claimedChat.chatId) = false ∧
    sentKeyboards (sendMessageToTelegram_p6 true (some ("G".toList)) true
        okOracle claimedChat wMsg).1 =
      [some (inlineKeyboard_p6 claimedChat)] :=
  ⟨C9_keyboard_composition.1 okEnv okOracle wChat wMsg (by decide)
     (by decide) rfl,
   (C9_keyboard_composition.2.2.2.1 wChat (by decide)).1,
   (C9_keyboard_composition.2.2.2.2 claimedChat (by decide)).1,
   C9_keyboard_composition.2.2.1 (some ("G".toList)) okOracle claimedChat
     wMsg (by decide) rfl⟩

/-- Claim C9 (counterexample): the canonical variant does NOT omit the
claim button for an already-claimed conversation — its keyboard always
carries the assign action. -/
theorem C9_counterexample :
    truthyOpt claimedChat.assignedAdminTelegramId = true ∧
    sentKeyboards (sendMessageToTelegram_v2 okEnv okOracle claimedChat
        wMsg).1 = [some (inlineKeyboard_v2 claimedChat.chatId)] ∧
    kbContainsData (inlineKeyboard_v2 claimedChat.chatId)
      (assignBtnData claimedChat.chatId) = true := by
  decide

end TelegramRelay
